import Mathlib

/-
Verification development for the fraud-detection analysis pipeline
(src/fraud_analysis.py).

The script loads a transaction CSV, derives categorical features with
pandas (load_data), stores the rows in SQLite, and runs a fixed battery of
grouped SQL aggregation queries.  This file gives a shallow embedding of
the feature derivation and of each aggregation query over an explicit list
of rows, and proves the claims C1..C10 about them.

Modelling conventions:
- Timestamps (trans_date_trans_time, dob) are integers counting seconds
  since the epoch 1970-01-01T00:00:00 (the zero point of the pandas
  datetime64 representation, which falls at midnight on a Thursday).
- Monetary amounts are exact rationals; SQLite computes in double
  precision floats, which we idealise as exact rational arithmetic.
- SQL NULL is Option.none; aggregates over an empty table yield none,
  matching SQLite (COUNT is 0, SUM/AVG are NULL).
- pandas cut uses right-closed bins: with edges e0 < e1 < ... a value v
  is labelled with bin i iff e_i < v and v <= e_i+1, and values outside
  all bins get NaN, which becomes NULL in SQLite.
- GROUP BY collects the distinct key values (NULLs forming a single
  group); ORDER BY is modelled by an insertion sort on the ordering key
  and LIMIT by List.take.
-/

-- ===================================================================
-- Generic list machinery: first-occurrence dedup and insertion sort
-- ===================================================================

/-- Distinct elements of a list in order of first occurrence, skipping
elements already seen (the accumulator). -/
def dedupAux {α : Type} [DecidableEq α] : List α → List α → List α
  | _, [] => []
  | seen, x :: xs => if x ∈ seen then dedupAux seen xs else x :: dedupAux (x :: seen) xs

/-- Distinct elements of a list, keeping the first occurrence of each. -/
def dedupFirst {α : Type} [DecidableEq α] (l : List α) : List α := dedupAux [] l

/-- Insert an element into a list ahead of the first element it is
le-related to. -/
def insertSorted {α : Type} (le : α → α → Bool) (x : α) : List α → List α
  | [] => [x]
  | y :: ys => if le x y then x :: y :: ys else y :: insertSorted le x ys

/-- Insertion sort with respect to a boolean le test. -/
def sortBy {α : Type} (le : α → α → Bool) : List α → List α
  | [] => []
  | x :: xs => insertSorted le x (sortBy le xs)

theorem mem_dedupAux {α : Type} [DecidableEq α] (a : α) :
    ∀ (l seen : List α), a ∈ dedupAux seen l ↔ a ∈ l ∧ a ∉ seen := by
  intro l
  induction l with
  | nil => intro seen; simp [dedupAux]
  | cons x xs ih =>
    intro seen
    by_cases hx : x ∈ seen
    · simp only [dedupAux, if_pos hx, ih, List.mem_cons]
      constructor
      · rintro ⟨h1, h2⟩; exact ⟨Or.inr h1, h2⟩
      · rintro ⟨h1 | h1, h2⟩
        · exact absurd (h1 ▸ hx) h2
        · exact ⟨h1, h2⟩
    · simp only [dedupAux, if_neg hx, List.mem_cons, ih]
      constructor
      · rintro (rfl | ⟨h1, h2⟩)
        · exact ⟨Or.inl rfl, hx⟩
        · exact ⟨Or.inr h1, fun hs => h2 (Or.inr hs)⟩
      · rintro ⟨rfl | h1, h2⟩
        · exact Or.inl rfl
        · by_cases hax : a = x
          · exact Or.inl hax
          · exact Or.inr ⟨h1, fun hs => hs.elim hax h2⟩

theorem mem_dedupFirst {α : Type} [DecidableEq α] (a : α) (l : List α) :
    a ∈ dedupFirst l ↔ a ∈ l := by
  simp [dedupFirst, mem_dedupAux]

theorem mem_insertSorted {α : Type} (le : α → α → Bool) (x a : α) :
    ∀ l : List α, a ∈ insertSorted le x l ↔ a = x ∨ a ∈ l := by
  intro l
  induction l with
  | nil => simp [insertSorted]
  | cons y ys ih =>
    by_cases h : le x y = true
    · simp [insertSorted, if_pos h, List.mem_cons]
    · simp only [insertSorted, if_neg h, List.mem_cons, ih]
      tauto

theorem mem_sortBy {α : Type} (le : α → α → Bool) (a : α) :
    ∀ l : List α, a ∈ sortBy le l ↔ a ∈ l := by
  intro l
  induction l with
  | nil => simp [sortBy]
  | cons x xs ih =>
    simp only [sortBy, mem_insertSorted, List.mem_cons, ih]

-- ===================================================================
-- SQLite ROUND(x, 2): round half away from zero to two decimals
-- ===================================================================

/-- Floor of a rational number, computed from its normalised fraction. -/
def intFloorQ (q : ℚ) : Int := Int.fdiv q.num (q.den : Int)

/-- Round a rational to the nearest integer, halves away from zero,
as the SQLite round() function does. -/
def roundAway (x : ℚ) : Int :=
  if x < 0 then - intFloorQ (-x + 1/2) else intFloorQ (x + 1/2)

/-- SQLite ROUND(x, 2). -/
def round2 (x : ℚ) : ℚ := (roundAway (x * 100) : ℚ) / 100

-- ===================================================================
-- Data model: one CSV transaction row (columns used by the queries)
-- ===================================================================

/-- One raw transaction record, with the columns the script reads.
Timestamps are in seconds since the epoch; is_fraud is the 0/1 flag
read as a boolean; amt is the transaction amount in dollars. -/
structure Row where
  trans_date_trans_time : Int
  cc_num : Nat
  merchant : String
  category : String
  amt : ℚ
  is_fraud : Bool
  dob : Int
  state : String
  gender : String
  city_pop : Int
deriving DecidableEq

-- ===================================================================
-- Feature deriver (the derived columns computed in load_data)
-- ===================================================================

/-- Hour of day of the transaction timestamp (dt.hour): for an epoch at
midnight this is floor(t / 3600) mod 24. -/
def txn_hour (r : Row) : Int := Int.emod (Int.fdiv r.trans_date_trans_time 3600) 24

/-- Day of week of the transaction timestamp (dt.dayofweek, 0 = Monday):
the epoch day 1970-01-01 was a Thursday, day number 3. -/
def txn_day_of_week (r : Row) : Int :=
  Int.emod (Int.fdiv r.trans_date_trans_time 86400 + 3) 7

/-- Civil year and month of a day count since 1970-01-01, by the standard
days-from-civil inversion over 400-year eras.  This models the year-month
label produced by dt.to_period(M). -/
def civilYearMonth (z0 : Int) : Int × Int :=
  let z := z0 + 719468
  let era := Int.fdiv z 146097
  let doe := z - era * 146097
  let yoe := Int.fdiv (doe - Int.fdiv doe 1460 + Int.fdiv doe 36524 - Int.fdiv doe 146096) 365
  let doy := doe - (365 * yoe + Int.fdiv yoe 4 - Int.fdiv yoe 100)
  let mp := Int.fdiv (5 * doy + 2) 153
  let m := mp + (if mp < 10 then 3 else -9)
  (era * 400 + yoe + (if m ≤ 2 then 1 else 0), m)

/-- The txn_month column: the year-month of the transaction timestamp. -/
def txn_month (r : Row) : Int × Int :=
  civilYearMonth (Int.fdiv r.trans_date_trans_time 86400)

/-- Whole days elapsed between date of birth and transaction time:
pandas timedelta .dt.days is the floor of the difference in days. -/
def elapsed_days (r : Row) : Int :=
  Int.fdiv (r.trans_date_trans_time - r.dob) 86400

/-- The age column: (days / 365.25).astype(int).  Division by 365.25 is
multiplication by 4/1461, and numpy astype(int) truncates toward zero,
hence t-division. -/
def age (r : Row) : Int := Int.tdiv (elapsed_days r * 4) 1461

/-- The age_group column: pd.cut with edges 0, 25, 35, 45, 55, 65, 120
and right-closed bins; values outside every bin map to none (NaN). -/
def age_group (a : Int) : Option String :=
  if 0 < a ∧ a ≤ 25 then some "18-24"
  else if 25 < a ∧ a ≤ 35 then some "25-34"
  else if 35 < a ∧ a ≤ 45 then some "35-44"
  else if 45 < a ∧ a ≤ 55 then some "45-54"
  else if 55 < a ∧ a ≤ 65 then some "55-64"
  else if 65 < a ∧ a ≤ 120 then some "65+"
  else none

/-- The amount_bucket column: pd.cut with edges 0, 100, 500, 1000, inf
and right-closed bins; values outside every bin map to none (NaN). -/
def amount_bucket (x : ℚ) : Option String :=
  if 0 < x ∧ x ≤ 100 then some "0-100"
  else if 100 < x ∧ x ≤ 500 then some "100-500"
  else if 500 < x ∧ x ≤ 1000 then some "500-1000"
  else if 1000 < x then some "1000+"
  else none

/-- The city_size column: pd.cut with edges 0, 10000, 100000, 500000, inf
and right-closed bins; values outside every bin map to none (NaN). -/
def city_size (p : Int) : Option String :=
  if 0 < p ∧ p ≤ 10000 then some "Rural (<10K)"
  else if 10000 < p ∧ p ≤ 100000 then some "Small (10K-100K)"
  else if 100000 < p ∧ p ≤ 500000 then some "Mid (100K-500K)"
  else if 500000 < p then some "Large (500K+)"
  else none

/-- A transaction row together with all derived columns added by
load_data before the table is written to SQLite. -/
structure Enriched where
  row : Row
  txn_hour : Int
  txn_day_of_week : Int
  txn_month : Int × Int
  age : Int
  age_group : Option String
  amount_bucket : Option String
  city_size : Option String
deriving DecidableEq

/-- Derivation of all feature columns for one row. -/
def enrich (r : Row) : Enriched :=
  { row := r
    txn_hour := txn_hour r
    txn_day_of_week := txn_day_of_week r
    txn_month := txn_month r
    age := age r
    age_group := age_group (age r)
    amount_bucket := amount_bucket r.amt
    city_size := city_size r.city_pop }

/-- The feature deriver applied to the whole dataset; it never drops or
reorders rows. -/
def derive (rows : List Row) : List Enriched := rows.map enrich

-- ===================================================================
-- Aggregation engine: GROUP BY machinery
-- ===================================================================

/-- The distinct values of a grouping key over a dataset, in first
occurrence order (SQL GROUP BY; NULL keys form a single group). -/
def groupKeys {α κ : Type} [DecidableEq κ] (kf : α → κ) (l : List α) : List κ :=
  dedupFirst (l.map kf)

/-- The rows of a dataset whose grouping key equals a given value. -/
def groupOf {α κ : Type} [DecidableEq κ] (kf : α → κ) (l : List α) (k : κ) : List α :=
  l.filter (fun x => decide (kf x = k))

/-- ROUND(100.0 * fraud / total, 2), the fraud-rate-percent expression
shared by all the queries. -/
def ratePct (total fraud : Nat) : ℚ := round2 (100 * (fraud : ℚ) / (total : ℚ))

theorem mem_groupKeys_of_mem {α κ : Type} [DecidableEq κ] (kf : α → κ)
    (l : List α) (x : α) (hx : x ∈ l) : kf x ∈ groupKeys kf l :=
  (mem_dedupFirst _ _).mpr (List.mem_map.mpr ⟨x, hx, rfl⟩)

theorem mem_groupOf_self {α κ : Type} [DecidableEq κ] (kf : α → κ)
    (l : List α) (x : α) (hx : x ∈ l) : x ∈ groupOf kf l (kf x) :=
  List.mem_filter.mpr ⟨hx, decide_eq_true rfl⟩

-- ===================================================================
-- The report row shapes (the SELECT column lists of each query)
-- ===================================================================

/-- Result row of the overview query (a single aggregate over the whole
table; on an empty table COUNT is 0 and the other aggregates are NULL). -/
structure OverviewRow where
  total_txns : Nat
  fraud_count : Option Nat
  fraud_rate_pct : Option ℚ
  avg_amount : Option ℚ
  total_fraud_amount : Option ℚ
deriving DecidableEq

/-- Result row of fraud_by_category. -/
structure CatRow where
  category : String
  total_txns : Nat
  fraud_txns : Nat
  fraud_rate_pct : ℚ
  avg_fraud_amt : Option ℚ
deriving DecidableEq

/-- Result row of fraud_by_hour. -/
structure HourRow where
  txn_hour : Int
  total_txns : Nat
  fraud_txns : Nat
  fraud_rate_pct : ℚ
deriving DecidableEq

/-- Result row of fraud_by_day_of_week. -/
structure DowRow where
  txn_day_of_week : Int
  total_txns : Nat
  fraud_txns : Nat
  fraud_rate_pct : ℚ
deriving DecidableEq

/-- Result row of fraud_by_amount_bucket: the bucket key is nullable
because the query has no NOT NULL filter, so NaN buckets group as NULL. -/
structure AmtRow where
  amount_bucket : Option String
  total_txns : Nat
  fraud_txns : Nat
  fraud_rate_pct : ℚ
deriving DecidableEq

/-- Result row of fraud_by_state. -/
structure StateRow where
  state : String
  total_txns : Nat
  fraud_txns : Nat
  fraud_rate_pct : ℚ
deriving DecidableEq

/-- Result row of fraud_by_gender. -/
structure GenderRow where
  gender : String
  total_txns : Nat
  fraud_txns : Nat
  fraud_rate_pct : ℚ
deriving DecidableEq

/-- Result row of fraud_by_age_group; the key is kept as the nullable
column value, though the WHERE clause admits only non-NULL keys. -/
structure AgeRow where
  age_group : Option String
  total_txns : Nat
  fraud_txns : Nat
  fraud_rate_pct : ℚ
deriving DecidableEq

/-- Result row of fraud_by_city_size; the key is kept as the nullable
column value, though the WHERE clause admits only non-NULL keys. -/
structure CityRow where
  city_size : Option String
  total_txns : Nat
  fraud_txns : Nat
  fraud_rate_pct : ℚ
deriving DecidableEq

/-- Result row of repeat_fraud_cards. -/
structure RfcRow where
  cc_num : Nat
  fraud_count : Nat
  total_fraud_amount : ℚ
  first_fraud : Option Int
  last_fraud : Option Int
deriving DecidableEq

/-- Result row of high_risk_merchants. -/
structure HrmRow where
  merchant : String
  category : String
  total_txns : Nat
  fraud_txns : Nat
  fraud_rate_pct : ℚ
  total_fraud_amount : ℚ
deriving DecidableEq

/-- Result row of fraud_trend_monthly. -/
structure MonthRow where
  txn_month : Int × Int
  total_txns : Nat
  fraud_txns : Nat
  fraud_rate_pct : ℚ
deriving DecidableEq

-- ===================================================================
-- The aggregation queries
-- ===================================================================

/-- The overview query: COUNT, SUM(is_fraud), the rate, AVG(amt) and the
fraud-amount sum over the whole table; SUM and AVG of an empty table are
NULL in SQLite, and NULL propagates through the rate expression. -/
def fraud_overview (rows : List Row) : OverviewRow :=
  { total_txns := rows.length
    fraud_count :=
      if rows.length = 0 then none
      else some (rows.filter (fun r => r.is_fraud)).length
    fraud_rate_pct :=
      if rows.length = 0 then none
      else some (ratePct rows.length (rows.filter (fun r => r.is_fraud)).length)
    avg_amount :=
      if rows.length = 0 then none
      else some (round2 ((rows.map (fun r => r.amt)).sum / (rows.length : ℚ)))
    total_fraud_amount :=
      if rows.length = 0 then none
      else some (round2 (((rows.filter (fun r => r.is_fraud)).map (fun r => r.amt)).sum)) }

/-- The aggregate row of one category group. -/
def catRecOf (rows : List Row) (c : String) : CatRow :=
  let g := groupOf (fun r => r.category) rows c
  let fr := g.filter (fun r => r.is_fraud)
  { category := c
    total_txns := g.length
    fraud_txns := fr.length
    fraud_rate_pct := ratePct g.length fr.length
    avg_fraud_amt :=
      if fr.length = 0 then none
      else some (round2 ((fr.map (fun r => r.amt)).sum / (fr.length : ℚ))) }

/-- fraud_by_category: grouped by category, ordered by rate descending.
AVG over only the fraud rows models AVG(CASE WHEN is_fraud = 1 THEN amt
END), which ignores the NULLs of the non-fraud rows and is NULL when the
group has no fraud rows. -/
def fraud_by_category (rows : List Row) : List CatRow :=
  sortBy (fun a b => decide (b.fraud_rate_pct ≤ a.fraud_rate_pct))
    ((groupKeys (fun r => r.category) rows).map (catRecOf rows))

/-- The aggregate row of one hour group. -/
def hourRecOf (rows : List Row) (h : Int) : HourRow :=
  let g := groupOf txn_hour rows h
  let fr := g.filter (fun r => r.is_fraud)
  { txn_hour := h
    total_txns := g.length
    fraud_txns := fr.length
    fraud_rate_pct := ratePct g.length fr.length }

/-- fraud_by_hour: grouped by txn_hour, ordered by hour ascending. -/
def fraud_by_hour (rows : List Row) : List HourRow :=
  sortBy (fun a b => decide (a.txn_hour ≤ b.txn_hour))
    ((groupKeys txn_hour rows).map (hourRecOf rows))

/-- The aggregate row of one day-of-week group. -/
def dowRecOf (rows : List Row) (d : Int) : DowRow :=
  let g := groupOf txn_day_of_week rows d
  let fr := g.filter (fun r => r.is_fraud)
  { txn_day_of_week := d
    total_txns := g.length
    fraud_txns := fr.length
    fraud_rate_pct := ratePct g.length fr.length }

/-- fraud_by_day_of_week: grouped by txn_day_of_week, ordered
ascending. -/
def fraud_by_day_of_week (rows : List Row) : List DowRow :=
  sortBy (fun a b => decide (a.txn_day_of_week ≤ b.txn_day_of_week))
    ((groupKeys txn_day_of_week rows).map (dowRecOf rows))

/-- The aggregate row of one amount-bucket group (NULL bucket included:
the query has no WHERE clause). -/
def amtRecOf (rows : List Row) (k : Option String) : AmtRow :=
  let g := groupOf (fun r => amount_bucket r.amt) rows k
  let fr := g.filter (fun r => r.is_fraud)
  { amount_bucket := k
    total_txns := g.length
    fraud_txns := fr.length
    fraud_rate_pct := ratePct g.length fr.length }

/-- fraud_by_amount_bucket: grouped by amount_bucket with no NULL
filter, ordered by rate descending. -/
def fraud_by_amount_bucket (rows : List Row) : List AmtRow :=
  sortBy (fun a b => decide (b.fraud_rate_pct ≤ a.fraud_rate_pct))
    ((groupKeys (fun r => amount_bucket r.amt) rows).map (amtRecOf rows))

/-- The aggregate row of one state group. -/
def stateRecOf (rows : List Row) (s : String) : StateRow :=
  let g := groupOf (fun r => r.state) rows s
  let fr := g.filter (fun r => r.is_fraud)
  { state := s
    total_txns := g.length
    fraud_txns := fr.length
    fraud_rate_pct := ratePct g.length fr.length }

/-- fraud_by_state: grouped by state, ordered by fraud count descending,
limited to the top n states (the script calls it with n = 15). -/
def fraud_by_state (rows : List Row) (n : Nat) : List StateRow :=
  (sortBy (fun a b => decide (b.fraud_txns ≤ a.fraud_txns))
    ((groupKeys (fun r => r.state) rows).map (stateRecOf rows))).take n

/-- The aggregate row of one gender group. -/
def genderRecOf (rows : List Row) (gd : String) : GenderRow :=
  let g := groupOf (fun r => r.gender) rows gd
  let fr := g.filter (fun r => r.is_fraud)
  { gender := gd
    total_txns := g.length
    fraud_txns := fr.length
    fraud_rate_pct := ratePct g.length fr.length }

/-- fraud_by_gender: grouped by gender, no ORDER BY clause. -/
def fraud_by_gender (rows : List Row) : List GenderRow :=
  (groupKeys (fun r => r.gender) rows).map (genderRecOf rows)

/-- The rows passing the WHERE age_group IS NOT NULL filter. -/
def ageKept (rows : List Row) : List Row :=
  rows.filter (fun r => decide (age_group (age r) ≠ none))

/-- The aggregate row of one age-group group. -/
def ageRecOf (rows : List Row) (k : Option String) : AgeRow :=
  let g := groupOf (fun r => age_group (age r)) (ageKept rows) k
  let fr := g.filter (fun r => r.is_fraud)
  { age_group := k
    total_txns := g.length
    fraud_txns := fr.length
    fraud_rate_pct := ratePct g.length fr.length }

/-- fraud_by_age_group: WHERE age_group IS NOT NULL, grouped by
age_group, ordered by rate descending. -/
def fraud_by_age_group (rows : List Row) : List AgeRow :=
  sortBy (fun a b => decide (b.fraud_rate_pct ≤ a.fraud_rate_pct))
    ((groupKeys (fun r => age_group (age r)) (ageKept rows)).map (ageRecOf rows))

/-- The rows passing the WHERE city_size IS NOT NULL filter. -/
def cityKept (rows : List Row) : List Row :=
  rows.filter (fun r => decide (city_size r.city_pop ≠ none))

/-- The aggregate row of one city-size group. -/
def cityRecOf (rows : List Row) (k : Option String) : CityRow :=
  let g := groupOf (fun r => city_size r.city_pop) (cityKept rows) k
  let fr := g.filter (fun r => r.is_fraud)
  { city_size := k
    total_txns := g.length
    fraud_txns := fr.length
    fraud_rate_pct := ratePct g.length fr.length }

/-- fraud_by_city_size: WHERE city_size IS NOT NULL, grouped by
city_size, ordered by rate descending. -/
def fraud_by_city_size (rows : List Row) : List CityRow :=
  sortBy (fun a b => decide (b.fraud_rate_pct ≤ a.fraud_rate_pct))
    ((groupKeys (fun r => city_size r.city_pop) (cityKept rows)).map (cityRecOf rows))

/-- The aggregate row of one card group over the fraud-only rows.
SQL MIN and MAX over the group are the list minimum and maximum, NULL on
an empty group. -/
def rfcRecOf (fraudRows : List Row) (k : Nat) : RfcRow :=
  let g := groupOf (fun r => r.cc_num) fraudRows k
  { cc_num := k
    fraud_count := g.length
    total_fraud_amount := round2 ((g.map (fun r => r.amt)).sum)
    first_fraud := (g.map (fun r => r.trans_date_trans_time)).min?
    last_fraud := (g.map (fun r => r.trans_date_trans_time)).max? }

/-- repeat_fraud_cards: WHERE is_fraud = 1, grouped by cc_num, HAVING
COUNT(*) >= 3, ordered by fraud count descending, LIMIT 20. -/
def repeat_fraud_cards (rows : List Row) : List RfcRow :=
  (sortBy (fun a b => decide (b.fraud_count ≤ a.fraud_count))
    (((groupKeys (fun r => r.cc_num) (rows.filter (fun r => r.is_fraud))).map
        (rfcRecOf (rows.filter (fun r => r.is_fraud)))).filter
      (fun g => decide (3 ≤ g.fraud_count)))).take 20

/-- The aggregate row of one merchant-and-category group. -/
def hrmRecOf (rows : List Row) (k : String × String) : HrmRow :=
  let g := groupOf (fun r => (r.merchant, r.category)) rows k
  let fr := g.filter (fun r => r.is_fraud)
  { merchant := k.1
    category := k.2
    total_txns := g.length
    fraud_txns := fr.length
    fraud_rate_pct := ratePct g.length fr.length
    total_fraud_amount := round2 ((fr.map (fun r => r.amt)).sum) }

/-- high_risk_merchants: grouped by merchant and category, HAVING
COUNT(*) >= 20 AND SUM(is_fraud) >= 3, ordered by rate descending,
LIMIT 20. -/
def high_risk_merchants (rows : List Row) : List HrmRow :=
  (sortBy (fun a b => decide (b.fraud_rate_pct ≤ a.fraud_rate_pct))
    (((groupKeys (fun r => (r.merchant, r.category)) rows).map (hrmRecOf rows)).filter
      (fun g => decide (20 ≤ g.total_txns) && decide (3 ≤ g.fraud_txns)))).take 20

/-- The aggregate row of one month group. -/
def monthRecOf (rows : List Row) (m : Int × Int) : MonthRow :=
  let g := groupOf txn_month rows m
  let fr := g.filter (fun r => r.is_fraud)
  { txn_month := m
    total_txns := g.length
    fraud_txns := fr.length
    fraud_rate_pct := ratePct g.length fr.length }

/-- fraud_trend_monthly: grouped by txn_month, ordered chronologically
(the YYYY-MM label sorts lexicographically, hence by year then month). -/
def fraud_trend_monthly (rows : List Row) : List MonthRow :=
  sortBy (fun a b => decide (a.txn_month.1 < b.txn_month.1 ∨
      (a.txn_month.1 = b.txn_month.1 ∧ a.txn_month.2 ≤ b.txn_month.2)))
    ((groupKeys txn_month rows).map (monthRecOf rows))

-- ===================================================================
-- Decomposition lemmas: every report row is the aggregate of the group
-- of its own key
-- ===================================================================

theorem sortBy_map_decomp {κ β : Type} (le : β → β → Bool) (keys : List κ)
    (mk : κ → β) (b : β) (hb : b ∈ sortBy le (keys.map mk)) :
    ∃ k, k ∈ keys ∧ mk k = b :=
  List.mem_map.mp ((mem_sortBy le b _).mp hb)

theorem mem_sortBy_map {κ β : Type} (le : β → β → Bool) (keys : List κ)
    (mk : κ → β) (k : κ) (hk : k ∈ keys) : mk k ∈ sortBy le (keys.map mk) :=
  (mem_sortBy le _ _).mpr (List.mem_map_of_mem mk hk)

/-- Restricting a dataset by a filter the key already implies does not
change the group of that key. -/
theorem groupOf_filter_eq {α κ : Type} [DecidableEq κ] (kf : α → κ) (p : α → Bool)
    (l : List α) (k : κ) (hp : ∀ x : α, kf x = k → p x = true) :
    groupOf kf (l.filter p) k = groupOf kf l k := by
  unfold groupOf
  rw [List.filter_filter]
  apply List.filter_congr
  intro a _
  by_cases h : kf a = k
  · simp [h, hp a h]
  · simp [h]

/-- Every group key of the age-group query comes from a row that passed
the IS NOT NULL filter, hence is not NULL. -/
theorem age_key_ne_none (rows : List Row) (k : Option String)
    (hk : k ∈ groupKeys (fun r => age_group (age r)) (ageKept rows)) : k ≠ none := by
  obtain ⟨r, hr, he⟩ := List.mem_map.mp ((mem_dedupFirst _ _).mp hk)
  have hne : age_group (age r) ≠ none := of_decide_eq_true (List.mem_filter.mp hr).2
  exact he ▸ hne

/-- Every group key of the city-size query comes from a row that passed
the IS NOT NULL filter, hence is not NULL. -/
theorem city_key_ne_none (rows : List Row) (k : Option String)
    (hk : k ∈ groupKeys (fun r => city_size r.city_pop) (cityKept rows)) : k ≠ none := by
  obtain ⟨r, hr, he⟩ := List.mem_map.mp ((mem_dedupFirst _ _).mp hk)
  have hne : city_size r.city_pop ≠ none := of_decide_eq_true (List.mem_filter.mp hr).2
  exact he ▸ hne

/-- Structure of a repeat_fraud_cards result row: it is the aggregate
record of some card key over the fraud-only rows, and it passed the
HAVING filter. -/
theorem rfc_decomp (rows : List Row) (g : RfcRow) (hg : g ∈ repeat_fraud_cards rows) :
    (∃ k, k ∈ groupKeys (fun r => r.cc_num) (rows.filter (fun r => r.is_fraud)) ∧
        rfcRecOf (rows.filter (fun r => r.is_fraud)) k = g) ∧
      3 ≤ g.fraud_count := by
  have h1 := List.take_subset _ _ hg
  have h2 := (mem_sortBy _ g _).mp h1
  have h3 := List.mem_filter.mp h2
  exact ⟨List.mem_map.mp h3.1, of_decide_eq_true h3.2⟩

/-- Structure of a high_risk_merchants result row: it is the aggregate
record of some merchant-and-category key, and it passed the HAVING
filter. -/
theorem hrm_decomp (rows : List Row) (g : HrmRow) (hg : g ∈ high_risk_merchants rows) :
    (∃ k, k ∈ groupKeys (fun r => (r.merchant, r.category)) rows ∧ hrmRecOf rows k = g) ∧
      20 ≤ g.total_txns ∧ 3 ≤ g.fraud_txns := by
  have h1 := List.take_subset _ _ hg
  have h2 := (mem_sortBy _ g _).mp h1
  have h3 := List.mem_filter.mp h2
  have h4 := (Bool.and_eq_true _ _).mp h3.2
  exact ⟨List.mem_map.mp h3.1, of_decide_eq_true h4.1, of_decide_eq_true h4.2⟩

-- ===================================================================
-- Concrete datasets used to witness the claims
-- ===================================================================

/-- A convenient constructor for concrete test rows: transaction time,
card number, merchant, category, amount, fraud flag; the remaining
columns are fixed innocuous values (dob at the epoch, a small city). -/
def mkRow (t : Int) (card : Nat) (m c : String) (a : ℚ) (f : Bool) : Row :=
  { trans_date_trans_time := t
    cc_num := card
    merchant := m
    category := c
    amt := a
    is_fraud := f
    dob := 0
    state := "NY"
    gender := "F"
    city_pop := 5000 }

/-- Twenty transactions at one merchant: card 1111 commits three frauds
of 10, 20 and 30 dollars; card 2222 makes seventeen clean purchases. -/
def dsA : List Row :=
  [mkRow 100 1111 "m1" "c1" 10 true,
   mkRow 200 1111 "m1" "c1" 20 true,
   mkRow 300 1111 "m1" "c1" 30 true] ++
  (List.range 17).map (fun i => mkRow (400 + i) 2222 "m1" "c1" 50 false)

/-- The expected repeat_fraud_cards row for card 1111 of dsA. -/
def rfcA : RfcRow :=
  { cc_num := 1111
    fraud_count := 3
    total_fraud_amount := 60
    first_fraud := some 100
    last_fraud := some 300 }

/-- The expected high_risk_merchants row for merchant m1 of dsA. -/
def hrmA : HrmRow :=
  { merchant := "m1"
    category := "c1"
    total_txns := 20
    fraud_txns := 3
    fraud_rate_pct := 15
    total_fraud_amount := 60 }

/-- The expected fraud_by_category row for category c1 of dsA. -/
def catA : CatRow :=
  { category := "c1"
    total_txns := 20
    fraud_txns := 3
    fraud_rate_pct := 15
    avg_fraud_amt := some 20 }

/-- A row whose derived age is exactly 25: 9200 elapsed days. -/
def rowAge25 : Row := mkRow (9200 * 86400) 1 "m" "c" 50 false

/-- A row whose derived age is exactly 17: 6250 elapsed days. -/
def rowAge17 : Row := mkRow (6250 * 86400) 1 "m" "c" 50 false

/-- A row whose derived age is exactly 30: 11000 elapsed days. -/
def rowAge30 : Row := mkRow (11000 * 86400) 1 "m" "c" 50 false

/-- A row with a zero amount, which pandas cut leaves out of every
amount bucket. -/
def rowAmt0 : Row := mkRow 0 1 "m" "c" 0 false

/-- A row whose date of birth lies 100 days after the transaction. -/
def rowDobFuture : Row :=
  { trans_date_trans_time := 0
    cc_num := 1
    merchant := "m"
    category := "c"
    amt := 50
    is_fraud := false
    dob := 100 * 86400
    state := "NY"
    gender := "F"
    city_pop := 5000 }

/-- A row with 100 elapsed days between birth and transaction. -/
def rowC9 : Row := mkRow (100 * 86400) 1 "m" "c" 50 false

/-- A one-row dataset whose only row has derived age 30. -/
def dsAge : List Row := [rowAge30]

/-- The expected fraud_by_age_group row of dsAge. -/
def ageB : AgeRow :=
  { age_group := some "25-34"
    total_txns := 1
    fraud_txns := 0
    fraud_rate_pct := 0 }

/-- A one-row dataset whose only row has a NULL amount bucket. -/
def dsC6 : List Row := [rowAmt0]

-- ===================================================================
-- Claim C1
-- ===================================================================

/-- C1: every row returned by the repeat-fraud-cards report has
fraud_count at least 3, and every row returned by the high-risk-merchants
report has total_txns at least 20 and fraud_txns at least 3, for every
input dataset. -/
theorem C1_report_thresholds (rows : List Row) :
    (∀ g ∈ repeat_fraud_cards rows, 3 ≤ g.fraud_count) ∧
    (∀ g ∈ high_risk_merchants rows, 20 ≤ g.total_txns ∧ 3 ≤ g.fraud_txns) := by
  constructor
  · intro g hg
    exact (rfc_decomp rows g hg).2
  · intro g hg
    exact (hrm_decomp rows g hg).2

unseal Rat.add Rat.mul Rat.inv Rat.sub in
/-- Witness for C1 on the concrete dataset dsA, whose reports contain
the rows rfcA and hrmA. -/
theorem C1_report_thresholds_witness :
    3 ≤ rfcA.fraud_count ∧ 20 ≤ hrmA.total_txns ∧ 3 ≤ hrmA.fraud_txns :=
  ⟨(C1_report_thresholds dsA).1 rfcA (by decide),
   ((C1_report_thresholds dsA).2 hrmA (by decide)).1,
   ((C1_report_thresholds dsA).2 hrmA (by decide)).2⟩

-- ===================================================================
-- Claim C2
-- ===================================================================

/-- C2 counterexample: a row whose derived age is exactly 25 is bucketed
as 18-24, not 25-34, because the pandas bins are right-closed: the edge
value 25 falls in the bin whose upper bound is 25. -/
theorem C2_age25_counterexample :
    age rowAge25 = 25 ∧ age_group (age rowAge25) = some "18-24" ∧
    age_group (age rowAge25) ≠ some "25-34" := by decide

/-- C2 amended: every row whose derived age is exactly 25 at transaction
time is assigned age_group 18-24 (a value exactly on a bin edge belongs
to the bin whose upper bound equals that edge). -/
theorem C2_age25_amended (r : Row) (h : age r = 25) :
    age_group (age r) = some "18-24" := by
  rw [h]; decide

/-- Witness for the amended C2 at the concrete row rowAge25. -/
theorem C2_age25_amended_witness : age_group (age rowAge25) = some "18-24" :=
  C2_age25_amended rowAge25 (by decide)

-- ===================================================================
-- Claim C3
-- ===================================================================

/-- C3 counterexample: the boundary amount 0 is not in the 0-100 bucket;
pandas cut leaves the left edge of the first bin out, so amount 0 gets no
bucket at all. -/
theorem C3_bucket_zero_counterexample :
    amount_bucket 0 = none ∧ amount_bucket 0 ≠ some "0-100" := by decide

/-- C3 amended: every strictly positive amount is assigned exactly one
of the four amount buckets (the bucket function is single-valued, so
membership in the four labels gives exactness), while the boundary
amount 0 is assigned no bucket. -/
theorem C3_bucket_totality_amended :
    amount_bucket 0 = none ∧
    ∀ x : ℚ, 0 < x →
      (amount_bucket x = some "0-100" ∨ amount_bucket x = some "100-500" ∨
       amount_bucket x = some "500-1000" ∨ amount_bucket x = some "1000+") := by
  refine ⟨by decide, ?_⟩
  intro x hx
  by_cases h1 : x ≤ 100
  · rw [amount_bucket, if_pos ⟨hx, h1⟩]
    exact Or.inl rfl
  · push_neg at h1
    by_cases h2 : x ≤ 500
    · rw [amount_bucket, if_neg (fun hc => absurd hc.2 (not_le.mpr h1)),
        if_pos ⟨h1, h2⟩]
      exact Or.inr (Or.inl rfl)
    · push_neg at h2
      by_cases h3 : x ≤ 1000
      · rw [amount_bucket, if_neg (fun hc => absurd hc.2 (not_le.mpr h1)),
          if_neg (fun hc => absurd hc.2 (not_le.mpr h2)), if_pos ⟨h2, h3⟩]
        exact Or.inr (Or.inr (Or.inl rfl))
      · push_neg at h3
        rw [amount_bucket, if_neg (fun hc => absurd hc.2 (not_le.mpr h1)),
          if_neg (fun hc => absurd hc.2 (not_le.mpr h2)),
          if_neg (fun hc => absurd hc.2 (not_le.mpr h3)), if_pos h3]
        exact Or.inr (Or.inr (Or.inr rfl))

/-- Witness for the amended C3 at the concrete amount 50. -/
theorem C3_bucket_totality_amended_witness :
    (0 : ℚ) < 50 ∧
    (amount_bucket 50 = some "0-100" ∨ amount_bucket 50 = some "100-500" ∨
     amount_bucket 50 = some "500-1000" ∨ amount_bucket 50 = some "1000+") :=
  ⟨by decide, C3_bucket_totality_amended.2 50 (by decide)⟩

-- ===================================================================
-- Claim C4
-- ===================================================================

/-- C4 counterexample: the interior edge values go to the bin whose
upper bound equals the edge, not the bin whose lower bound does: amount
100 is bucketed 0-100 and city population 10000 is bucketed Rural. -/
theorem C4_edge_counterexample :
    amount_bucket 100 = some "0-100" ∧ amount_bucket 100 ≠ some "100-500" ∧
    city_size 10000 = some "Rural (<10K)" ∧
    city_size 10000 ≠ some "Small (10K-100K)" := by decide

/-- C4 amended: a value exactly on an interior bin edge is assigned the
bin whose upper bound equals that edge (pandas right-closed bins), for
all six interior edges of the amount and city-population binnings. -/
theorem C4_edge_bins_amended :
    amount_bucket 100 = some "0-100" ∧
    amount_bucket 500 = some "100-500" ∧
    amount_bucket 1000 = some "500-1000" ∧
    city_size 10000 = some "Rural (<10K)" ∧
    city_size 100000 = some "Small (10K-100K)" ∧
    city_size 500000 = some "Mid (100K-500K)" := by decide

-- ===================================================================
-- Claim C9
-- ===================================================================

/-- C9 counterexample: the derived age truncates toward zero, not toward
negative infinity; on a row whose date of birth lies 100 days after the
transaction the elapsed-days quotient is about -0.27, the code computes
age 0, and the floor the claim requires is -1. -/
theorem C9_truncation_counterexample :
    elapsed_days rowDobFuture = -100 ∧
    age rowDobFuture = 0 ∧
    Int.fdiv (elapsed_days rowDobFuture * 4) 1461 = -1 ∧
    age rowDobFuture ≠ Int.fdiv (elapsed_days rowDobFuture * 4) 1461 := by decide

/-- C9 amended: for every row with non-negatively many elapsed days
between date of birth and transaction, the derived age equals
floor(elapsed_days / 365.25); in general the code truncates the quotient
toward zero, which only differs when the elapsed days are negative. -/
theorem C9_age_floor_amended (r : Row) (h : 0 ≤ elapsed_days r) :
    age r = Int.fdiv (elapsed_days r * 4) 1461 := by
  unfold age
  exact (Int.fdiv_eq_tdiv (mul_nonneg h (by norm_num)) (by norm_num)).symm

/-- Witness for the amended C9 at the concrete row rowC9. -/
theorem C9_age_floor_amended_witness :
    0 ≤ elapsed_days rowC9 ∧ age rowC9 = Int.fdiv (elapsed_days rowC9 * 4) 1461 :=
  ⟨by decide, C9_age_floor_amended rowC9 (by decide)⟩

-- ===================================================================
-- Claim C5
-- ===================================================================

/-- C5 counterexample: a row with derived age 17 is not left unbucketed;
the first pandas bin is the whole interval from 0 exclusive to 25
inclusive labelled 18-24, so age 17 receives that label. -/
theorem C5_age_bins_counterexample :
    age rowAge17 = 17 ∧ age_group (age rowAge17) = some "18-24" ∧
    age_group (age rowAge17) ≠ none := by decide

/-- C5 amended: a derived age is left without an age_group exactly when
it is at most 0 or above 120 (ages 1 to 25 all land in the bin labelled
18-24 and age 120 lands in 65+), and every row of the by-age-group
report has a non-NULL group whose count covers exactly the rows of the
dataset carrying that group label, so unbucketed rows are excluded. -/
theorem C5_age_bins_amended :
    (∀ a : Int, age_group a = none ↔ (a ≤ 0 ∨ 120 < a)) ∧
    (∀ rows : List Row, ∀ g ∈ fraud_by_age_group rows,
       g.age_group ≠ none ∧
       g.total_txns = (groupOf (fun r => age_group (age r)) rows g.age_group).length) := by
  constructor
  · intro a
    unfold age_group
    split_ifs with h1 h2 h3 h4 h5 h6 <;> simp <;> omega
  · intro rows g hg
    obtain ⟨k, hk, rfl⟩ := sortBy_map_decomp _ _ _ g hg
    have hkne : k ≠ none := age_key_ne_none rows k hk
    refine ⟨hkne, ?_⟩
    have heq : groupOf (fun r => age_group (age r)) (ageKept rows) k
        = groupOf (fun r => age_group (age r)) rows k :=
      groupOf_filter_eq (fun r => age_group (age r))
        (fun r => decide (age_group (age r) ≠ none)) rows k
        (fun x hx => decide_eq_true (fun hno => hkne (hx.symm.trans hno)))
    exact congrArg List.length heq

unseal Rat.add Rat.mul Rat.inv Rat.sub in
/-- Witness for the amended C5 on the one-row dataset dsAge, whose
by-age-group report contains the row ageB. -/
theorem C5_age_bins_amended_witness :
    ageB.age_group ≠ none ∧
    ageB.total_txns = (groupOf (fun r => age_group (age r)) dsAge ageB.age_group).length :=
  C5_age_bins_amended.2 dsAge ageB (by decide)

-- ===================================================================
-- Claim C6
-- ===================================================================

unseal Rat.add Rat.mul Rat.inv Rat.sub in
/-- C6 counterexample: a row with a NULL amount bucket is not excluded
from the by-amount-bucket report; that query has no IS NOT NULL filter,
so the row shows up grouped under the NULL bucket key. -/
theorem C6_null_bucket_counterexample :
    amount_bucket rowAmt0.amt = none ∧
    (fraud_by_amount_bucket dsC6).map (fun g => g.amount_bucket) = [none] ∧
    (fraud_by_amount_bucket dsC6).map (fun g => g.total_txns) = [1] := by decide

/-- C6 amended: rows with out-of-bin values are retained by the feature
deriver with a null bucket and are excluded from the by-age-group and
by-city-size reports (all of whose groups are non-NULL); in the
by-amount-bucket report they instead appear grouped under a NULL bucket
key; and they are still counted in the overview and in the by-category,
by-hour and by-day-of-week reports through the group of their own key. -/
theorem C6_null_bucket_amended (rows : List Row) :
    (derive rows).length = rows.length ∧
    (fraud_overview rows).total_txns = rows.length ∧
    (∀ g ∈ fraud_by_age_group rows, g.age_group ≠ none) ∧
    (∀ g ∈ fraud_by_city_size rows, g.city_size ≠ none) ∧
    (∀ r0 ∈ rows, amount_bucket r0.amt = none →
        amtRecOf rows none ∈ fraud_by_amount_bucket rows ∧
        r0 ∈ groupOf (fun r => amount_bucket r.amt) rows none ∧
        (amtRecOf rows none).total_txns =
          (groupOf (fun r => amount_bucket r.amt) rows none).length) ∧
    (∀ r0 ∈ rows,
        catRecOf rows r0.category ∈ fraud_by_category rows ∧
        r0 ∈ groupOf (fun r => r.category) rows r0.category ∧
        (catRecOf rows r0.category).total_txns =
          (groupOf (fun r => r.category) rows r0.category).length) ∧
    (∀ r0 ∈ rows,
        hourRecOf rows (txn_hour r0) ∈ fraud_by_hour rows ∧
        r0 ∈ groupOf txn_hour rows (txn_hour r0)) ∧
    (∀ r0 ∈ rows,
        dowRecOf rows (txn_day_of_week r0) ∈ fraud_by_day_of_week rows ∧
        r0 ∈ groupOf txn_day_of_week rows (txn_day_of_week r0)) := by
  refine ⟨List.length_map _ _, rfl, ?_, ?_, ?_, ?_, ?_, ?_⟩
  · intro g hg
    obtain ⟨k, hk, rfl⟩ := sortBy_map_decomp _ _ _ g hg
    exact age_key_ne_none rows k hk
  · intro g hg
    obtain ⟨k, hk, rfl⟩ := sortBy_map_decomp _ _ _ g hg
    exact city_key_ne_none rows k hk
  · intro r0 h0 hb
    refine ⟨?_, List.mem_filter.mpr ⟨h0, decide_eq_true hb⟩, rfl⟩
    have hkey : amount_bucket r0.amt ∈ groupKeys (fun r => amount_bucket r.amt) rows :=
      mem_groupKeys_of_mem (fun r => amount_bucket r.amt) rows r0 h0
    rw [hb] at hkey
    exact mem_sortBy_map _ _ _ none hkey
  · intro r0 h0
    exact ⟨mem_sortBy_map _ _ _ r0.category
        (mem_groupKeys_of_mem (fun r => r.category) rows r0 h0),
      mem_groupOf_self (fun r => r.category) rows r0 h0, rfl⟩
  · intro r0 h0
    exact ⟨mem_sortBy_map _ _ _ (txn_hour r0)
        (mem_groupKeys_of_mem txn_hour rows r0 h0),
      mem_groupOf_self txn_hour rows r0 h0⟩
  · intro r0 h0
    exact ⟨mem_sortBy_map _ _ _ (txn_day_of_week r0)
        (mem_groupKeys_of_mem txn_day_of_week rows r0 h0),
      mem_groupOf_self txn_day_of_week rows r0 h0⟩

unseal Rat.add Rat.mul Rat.inv Rat.sub in
/-- Witness for the amended C6 on the one-row dataset dsC6, whose only
row has a NULL amount bucket. -/
theorem C6_null_bucket_amended_witness :
    amtRecOf dsC6 none ∈ fraud_by_amount_bucket dsC6 ∧
    rowAmt0 ∈ groupOf (fun r => amount_bucket r.amt) dsC6 none ∧
    (amtRecOf dsC6 none).total_txns =
      (groupOf (fun r => amount_bucket r.amt) dsC6 none).length :=
  (C6_null_bucket_amended dsC6).2.2.2.2.1 rowAmt0 (by decide) (by decide)

-- ===================================================================
-- Claim C7
-- ===================================================================

unseal Rat.add Rat.mul Rat.inv Rat.sub in
theorem round2_zero : round2 0 = 0 := by decide

/-- C7 counterexample: the overview report carries total_fraud_amount,
and on the empty dataset, whose single aggregate group contains no fraud
rows, SQLite returns NULL for it rather than 0. -/
theorem C7_fraud_amount_counterexample :
    (fraud_overview []).total_fraud_amount = none ∧
    (fraud_overview []).total_fraud_amount ≠ some 0 := by decide

/-- C7 amended: avg_fraud_amt in the by-category report averages amt
over only the fraud rows of the group and is NULL when the group has
none; total_fraud_amount sums amt over the fraud rows of the group, and
equals 0 when a nonempty table has no fraud rows; but the overview of an
empty table reports NULL rather than 0. -/
theorem C7_fraud_amount_semantics_amended (rows : List Row) :
    (∀ g ∈ fraud_by_category rows,
       g.avg_fraud_amt =
         (if ((groupOf (fun r => r.category) rows g.category).filter
                (fun r => r.is_fraud)).length = 0 then none
          else some (round2 ((((groupOf (fun r => r.category) rows g.category).filter
                  (fun r => r.is_fraud)).map (fun r => r.amt)).sum /
              ((((groupOf (fun r => r.category) rows g.category).filter
                  (fun r => r.is_fraud)).length : Nat) : ℚ))))) ∧
    (rows ≠ [] →
       (fraud_overview rows).total_fraud_amount =
         some (round2 (((rows.filter (fun r => r.is_fraud)).map (fun r => r.amt)).sum))) ∧
    (rows ≠ [] → rows.filter (fun r => r.is_fraud) = [] →
       (fraud_overview rows).total_fraud_amount = some 0) ∧
    (∀ g ∈ high_risk_merchants rows,
       g.total_fraud_amount =
         round2 ((((groupOf (fun r => (r.merchant, r.category)) rows
               (g.merchant, g.category)).filter (fun r => r.is_fraud)).map
             (fun r => r.amt)).sum)) := by
  refine ⟨?_, ?_, ?_, ?_⟩
  · intro g hg
    obtain ⟨k, hk, rfl⟩ := sortBy_map_decomp _ _ _ g hg
    rfl
  · intro hne
    have hlen : rows.length ≠ 0 := fun h => hne (List.length_eq_zero.mp h)
    show (if rows.length = 0 then none
        else some (round2 (((rows.filter (fun r => r.is_fraud)).map (fun r => r.amt)).sum)))
      = some (round2 (((rows.filter (fun r => r.is_fraud)).map (fun r => r.amt)).sum))
    rw [if_neg hlen]
  · intro hne hfr
    have hlen : rows.length ≠ 0 := fun h => hne (List.length_eq_zero.mp h)
    show (if rows.length = 0 then none
        else some (round2 (((rows.filter (fun r => r.is_fraud)).map (fun r => r.amt)).sum)))
      = some 0
    rw [if_neg hlen, hfr]
    simp [round2_zero]
  · intro g hg
    obtain ⟨⟨k, hk, rfl⟩, h20, h3⟩ := hrm_decomp rows g hg
    rfl

unseal Rat.add Rat.mul Rat.inv Rat.sub in
/-- Witness for the amended C7 on the dataset dsA: category c1 has three
fraud rows averaging 20 dollars, the overview fraud total is 60 dollars,
and the high-risk-merchants row for m1 carries the fraud-row sum. -/
theorem C7_fraud_amount_semantics_amended_witness :
    catA.avg_fraud_amt = some 20 ∧
    (fraud_overview dsA).total_fraud_amount = some 60 ∧
    hrmA.total_fraud_amount =
      round2 ((((groupOf (fun r => (r.merchant, r.category)) dsA
            (hrmA.merchant, hrmA.category)).filter (fun r => r.is_fraud)).map
          (fun r => r.amt)).sum) := by
  refine ⟨?_, ?_, ?_⟩
  · have h := (C7_fraud_amount_semantics_amended dsA).1 catA (by decide)
    rw [h]
    decide
  · have h := (C7_fraud_amount_semantics_amended dsA).2.1 (by decide)
    rw [h]
    decide
  · exact (C7_fraud_amount_semantics_amended dsA).2.2.2 hrmA (by decide)

-- ===================================================================
-- Claim C8
-- ===================================================================

/-- C8 counterexample: on the empty dataset the overview does not report
zero counts and a zero rate; SQLite leaves SUM and the rate NULL. -/
theorem C8_empty_overview_counterexample :
    (fraud_overview []).fraud_rate_pct = none ∧
    (fraud_overview []).fraud_rate_pct ≠ some 0 ∧
    (fraud_overview []).fraud_count = none ∧
    (fraud_overview []).fraud_count ≠ some 0 := by decide

/-- C8 amended: on the empty dataset the overview reports zero total
transactions but NULL, not 0, for the fraud count, the fraud rate, the
average amount and the fraud total, while every grouped report returns
an empty result set rather than failing. -/
theorem C8_empty_dataset_amended :
    fraud_overview [] =
      { total_txns := 0, fraud_count := none, fraud_rate_pct := none,
        avg_amount := none, total_fraud_amount := none } ∧
    fraud_by_category [] = [] ∧
    fraud_by_hour [] = [] ∧
    fraud_by_day_of_week [] = [] ∧
    fraud_by_amount_bucket [] = [] ∧
    fraud_by_state [] 15 = [] ∧
    fraud_by_gender [] = [] ∧
    fraud_by_age_group [] = [] ∧
    fraud_by_city_size [] = [] ∧
    repeat_fraud_cards [] = [] ∧
    high_risk_merchants [] = [] ∧
    fraud_trend_monthly [] = [] := by decide

-- ===================================================================
-- Claim C10
-- ===================================================================

/-- C10: every row of the repeat-fraud-cards report is the aggregate of
the fraud-only rows of its own card: fraud_count counts them,
total_fraud_amount is the rounded sum of their amounts, and first_fraud
and last_fraud are the minimum and maximum of their transaction
timestamps; rows of the same card that are not fraud contribute
nothing, having been removed by the WHERE is_fraud = 1 filter before
grouping. -/
theorem C10_rfc_group_fields (rows : List Row) (g : RfcRow)
    (hg : g ∈ repeat_fraud_cards rows) :
    g.fraud_count =
      (groupOf (fun r => r.cc_num) (rows.filter (fun r => r.is_fraud)) g.cc_num).length ∧
    g.total_fraud_amount =
      round2 (((groupOf (fun r => r.cc_num) (rows.filter (fun r => r.is_fraud))
          g.cc_num).map (fun r => r.amt)).sum) ∧
    g.first_fraud =
      ((groupOf (fun r => r.cc_num) (rows.filter (fun r => r.is_fraud))
          g.cc_num).map (fun r => r.trans_date_trans_time)).min? ∧
    g.last_fraud =
      ((groupOf (fun r => r.cc_num) (rows.filter (fun r => r.is_fraud))
          g.cc_num).map (fun r => r.trans_date_trans_time)).max? := by
  obtain ⟨⟨k, hk, rfl⟩, h3⟩ := rfc_decomp rows g hg
  exact ⟨rfl, rfl, rfl, rfl⟩

unseal Rat.add Rat.mul Rat.inv Rat.sub in
/-- Witness for C10 on the dataset dsA at the report row rfcA of card
1111. -/
theorem C10_rfc_group_fields_witness :
    rfcA.fraud_count =
      (groupOf (fun r => r.cc_num) (dsA.filter (fun r => r.is_fraud)) rfcA.cc_num).length ∧
    rfcA.total_fraud_amount =
      round2 (((groupOf (fun r => r.cc_num) (dsA.filter (fun r => r.is_fraud))
          rfcA.cc_num).map (fun r => r.amt)).sum) ∧
    rfcA.first_fraud =
      ((groupOf (fun r => r.cc_num) (dsA.filter (fun r => r.is_fraud))
          rfcA.cc_num).map (fun r => r.trans_date_trans_time)).min? ∧
    rfcA.last_fraud =
      ((groupOf (fun r => r.cc_num) (dsA.filter (fun r => r.is_fraud))
          rfcA.cc_num).map (fun r => r.trans_date_trans_time)).max? :=
  C10_rfc_group_fields dsA rfcA (by decide)
